import Mathlib

set_option maxHeartbeats 1000000
set_option linter.unusedVariables false

/-!
Verification of the Vamb pipeline driver `run.py`.

The script is embedded shallowly: the operating environment (file-system
predicates, accelerator availability, CPU count) is a record of oracles,
the parsed command line is a record matching the argparse destinations,
the module-level validation block is a function returning the first error
raised, and the pipeline `main` with its four stage functions is a function
producing an event trace (log lines, collaborator invocations, directory
creation, file writes) together with an `Except` outcome.  The external
collaborators ( vamb.parsecontigs, vamb.parsebam, vamb.encode, vamb.cluster)
are modelled as oracle outcomes, since they are out of scope of the
orchestration layer being specified.
-/

namespace Vamb

/-- The ambient operating environment queried by run.py:
`os.path.exists`, `os.path.isdir`, `os.path.isfile`,
`torch.cuda.is_available()` and `os.cpu_count()`. -/
structure Env where
  pathExists : String → Bool
  isdir : String → Bool
  isfile : String → Bool
  cudaAvailable : Bool
  cpuCount : Nat

/-- Parsed command-line arguments, one field per argparse destination
(run.py lines 138-175).  Integer options are Python ints, hence `Int`;
the two float options are modelled as rationals, which is exact for all
the literals the script and its checks involve. -/
structure Args where
  outdir : String
  fasta : String
  bamfiles : List String
  minlength : Int
  minascore : Int
  subprocesses : Int
  nhiddens : List Int
  nlatent : Int
  nepochs : Int
  batchsize : Int
  capacity : ℚ
  mseratio : ℚ
  cuda : Bool
  tandem : Bool
  minsize : Int
  maxclusters : Int
  deriving DecidableEq

/-- Model of DEFAULT_PROCESSES = min(os.cpu_count(), 8) (run.py line 12). -/
def DEFAULT_PROCESSES (cpuCount : Nat) : Nat := min cpuCount 8

/-- The argparse defaults (run.py lines 145-175), given the three
positional arguments and the machine CPU count. -/
def defaultArgs (outdir fasta : String) (bamfiles : List String) (cpuCount : Nat) : Args where
  outdir := outdir
  fasta := fasta
  bamfiles := bamfiles
  minlength := 100
  minascore := 50
  subprocesses := (DEFAULT_PROCESSES cpuCount : Nat)
  nhiddens := [325, 325, 325]
  nlatent := 40
  nepochs := 400
  batchsize := 128
  capacity := 1000.0
  mseratio := 0.2
  cuda := false
  tandem := false
  minsize := 1
  maxclusters := -1

/-- Drop trailing slash characters, as `str.rstrip(sep)` does. -/
def rstripSlashes (cs : List Char) : List Char :=
  (cs.reverse.dropWhile (fun c => c == '/')).reverse

/-- Index of the last slash in the character list, if any
(`p.rfind(sep)` for a found separator). -/
def lastSlashIdx (cs : List Char) : Option Nat :=
  match cs.reverse.findIdx? (fun c => c == '/') with
  | none => none
  | some k => some (cs.length - 1 - k)

/-- Model of `os.path.dirname` for POSIX paths: take everything up to and including
the final separator, then strip trailing separators unless the head is all
separators. -/
def dirname (p : String) : String :=
  let cs := p.data
  let i := match lastSlashIdx cs with
    | none => 0
    | some j => j + 1
  let head := cs.take i
  let head2 := if head ≠ [] ∧ head ≠ List.replicate head.length '/'
    then rstripSlashes head else head
  String.mk head2

/-- Model of `os.path.join` for a relative final component, as used by run.py with
literal file names. -/
def joinPath (a b : String) : String :=
  if a = "" then b else if String.endsWith a "/" then a ++ b else a ++ "/" ++ b

/-- The exceptions the script can raise, tagged with the Python exception
class and its message or argument. -/
inductive Err where
  | fileExistsError : String → Err
  | notADirectoryError : String → Err
  | fileNotFoundError : String → Err
  | argumentTypeError : String → Err
  | attributeError : String → Err
  | moduleNotFoundError : String → Err
  | valueError : String → Err
  deriving DecidableEq, Repr

/-- run.py lines 186-193: the output-directory checks of the section
headed CHECK INPUT/OUTPUT FILES — the outdir must not exist, and its
parent directory component (when nonempty) must be a directory. -/
def check_outdir (env : Env) (a : Args) : Option Err :=
  if env.pathExists a.outdir then some (Err.fileExistsError a.outdir) else
  if dirname a.outdir ≠ "" ∧ ¬ env.isdir (dirname a.outdir) then
    some (Err.notADirectoryError (dirname a.outdir)) else
  none

/-- run.py lines 195-202: the input-file checks of the section headed
CHECK INPUT/OUTPUT FILES — the FASTA path and every BAM path must be
files; the error names the first missing BAM. -/
def check_infiles (env : Env) (a : Args) : Option Err :=
  if ¬ env.isfile a.fasta then some (Err.fileNotFoundError a.fasta) else
  match a.bamfiles.find? (fun b => ! env.isfile b) with
  | some b => some (Err.fileNotFoundError b)
  | none => none

/-- run.py lines 204-213: the section headed CHECK ARGUMENTS FOR TNF AND
BAMFILES. -/
def check_tnf_bam_args (a : Args) : Option Err :=
  if a.minlength < 100 then
    some (Err.argumentTypeError "Minimum contig length must be at least 100") else
  if a.subprocesses < 1 then
    some (Err.argumentTypeError "Zero or negative subprocesses requested.") else
  if a.minascore < 0 then
    some (Err.argumentTypeError "Minimum alignment score cannot be negative") else
  none

/-- run.py lines 215-236: the section headed CHECK TRAINING OPTIONS.
The hidden-layer and latent branches mirror source lines 217-221 exactly:
the message format there reads `args.hidden` and `args.latent`,
attributes that do not exist on the parsed namespace (the destinations
are `nhiddens` and `nlatent`), so Python raises `AttributeError` while
building the message, before the intended `ArgumentTypeError` is ever
constructed. -/
def check_training (env : Env) (a : Args) : Option Err :=
  if a.nhiddens.any (fun i => i < 1) then some (Err.attributeError "hidden") else
  if a.nlatent < 1 then some (Err.attributeError "latent") else
  if a.nepochs < 1 then
    some (Err.argumentTypeError ("Minimum 1 epoch, not " ++ toString a.nepochs)) else
  if a.batchsize < 1 then
    some (Err.argumentTypeError ("Minimum batchsize of 1, not " ++ toString a.batchsize)) else
  if a.capacity < 0 then
    some (Err.argumentTypeError "Capacity cannot be negative") else
  if Args.mseratio a ≤ 0 ∨ 1 ≤ Args.mseratio a then
    some (Err.argumentTypeError "MSE ratio must be above 0 and below 1") else
  if a.cuda ∧ ¬ env.cudaAvailable then
    some (Err.moduleNotFoundError "Cuda is not available for PyTorch") else
  none

/-- run.py lines 238-241: the section headed CHECK CLUSTERING OPTIONS. -/
def check_clustering (a : Args) : Option Err :=
  if a.minsize < 1 then
    some (Err.argumentTypeError "Minimum cluster size must be at least 0.") else
  none

/-- The module-level validation block of run.py (lines 186-241): the four
comment-delimited check sections run in source order, and the first check
that raises wins; `none` means every check passed. -/
def validate (env : Env) (a : Args) : Option Err :=
  match check_outdir env a with
  | some e => some e
  | none =>
  match check_infiles env a with
  | some e => some e
  | none =>
  match check_tnf_bam_args a with
  | some e => some e
  | none =>
  match check_training env a with
  | some e => some e
  | none => check_clustering a

/-- Observable events of a run: a log line printed to the logfile, an
invocation of an external collaborator, a directory creation, and a file
creation or write. -/
inductive Ev where
  | log : String → Ev
  | callStage : String → Ev
  | mkdir : String → Ev
  | write : String → Ev
  deriving DecidableEq, Repr

/-- Outcomes of the external collaborator calls consumed by the driver:
contig parsing returns the contig count, alignment parsing the coverage
row count, and the remaining collaborators either succeed or raise. -/
structure Collab where
  read_contigs : Except Err Nat
  read_bamfiles : Except Err Nat
  encode_trainvae : Except Err Unit
  vae_encode : Except Err Unit
  cluster_iterator : Except Err Nat
  write_clusters : Except Err Nat

/-- run.py lines 14-31: open the FASTA file and parse contigs, persist
tnf.npz, log the summary lines, return the contig data. -/
def calc_tnf (outdir fastapath : String) (mincontiglength : Int) (co : Collab) :
    List Ev × Except Err Nat :=
  let pre := [Ev.log "Calculating TNF", Ev.callStage "read_contigs"]
  match co.read_contigs with
  | .error e => (pre, .error e)
  | .ok ncontigs =>
      (pre ++ [Ev.write (joinPath outdir "tnf.npz"),
               Ev.log "Processed bases in contigs",
               Ev.log "Calculated TNF in seconds"], .ok ncontigs)

/-- The message of the ValueError raised on a contig-count mismatch
(run.py lines 41-43), a fixed literal. -/
def mismatchMsg : String :=
  "Number of FASTA vs BAM file headers do not match. Are you sure the BAM files originate from same FASTA file and have headers?"

/-- run.py lines 33-49: parse the BAM files, compare the row count with
the contig count, persist rpkm.npz only when they agree. -/
def calc_rpkm (outdir : String) (bampaths : List String)
    (mincontiglength minalignscore subprocesses : Int) (ncontigs : Nat) (co : Collab) :
    List Ev × Except Err Nat :=
  let pre := [Ev.log "Calculating RPKM",
              Ev.log "Parsing BAM files with subprocesses",
              Ev.callStage "read_bamfiles"]
  match co.read_bamfiles with
  | .error e => (pre, .error e)
  | .ok nrows =>
      if nrows ≠ ncontigs then (pre, .error (Err.valueError mismatchMsg))
      else (pre ++ [Ev.write (joinPath outdir "rpkm.npz"),
                    Ev.log "Calculated RPKM in seconds"], .ok nrows)

/-- run.py lines 51-70: train the VAE (the collaborator persists model.pt
at the modelpath the stage passes it), encode the latent representation,
persist latent.npz. -/
def trainvae (outdir : String) (nhiddens : List Int) (nlatent nepochs batchsize : Int)
    (cuda : Bool) (capacity mseratio : ℚ) (co : Collab) : List Ev × Except Err Unit :=
  let pre := [Ev.log "Training VAE", Ev.callStage "encode.trainvae"]
  match co.encode_trainvae with
  | .error e => (pre, .error e)
  | .ok _ =>
      let pre2 := pre ++ [Ev.write (joinPath outdir "model.pt"), Ev.callStage "vae.encode"]
      match co.vae_encode with
      | .error e => (pre2, .error e)
      | .ok _ => (pre2 ++ [Ev.write (joinPath outdir "latent.npz"),
                           Ev.log "Trained VAE and encoded in seconds"], .ok ())

/-- run.py lines 72-88: obtain the cluster iterator, open clusters.tsv and
write the clusters through it, log the summary. -/
def cluster (outdir : String) (maxclusters minclustersize : Int) (co : Collab) :
    List Ev × Except Err Unit :=
  let pre := [Ev.log "Clustering", Ev.callStage "cluster.cluster"]
  match co.cluster_iterator with
  | .error e => (pre, .error e)
  | .ok _ =>
      let pre2 := pre ++ [Ev.write (joinPath outdir "clusters.tsv"),
                          Ev.callStage "write_clusters"]
      match co.write_clusters with
      | .error e => (pre2, .error e)
      | .ok _ => (pre2 ++ [Ev.log "Clustered contigs in seconds"], .ok ())

/-- run.py lines 92-117: the pipeline driver, invoking the four stages in
source order and threading the contig count from feature extraction into
the coverage stage.  Any stage error aborts the run and is returned
unchanged. -/
def main (outdir fastapath : String) (bampaths : List String)
    (mincontiglength minalignscore subprocesses : Int)
    (nhiddens : List Int) (nlatent nepochs batchsize : Int) (cuda : Bool)
    (capacity mseratio : ℚ) (minclustersize maxclusters : Int) (co : Collab) :
    List Ev × Except Err Unit :=
  let hdr := [Ev.log "Starting Vamb version"]
  match calc_tnf outdir fastapath mincontiglength co with
  | (t1, .error e) => (hdr ++ t1, .error e)
  | (t1, .ok ncontigs) =>
    match calc_rpkm outdir bampaths mincontiglength minalignscore subprocesses ncontigs co with
    | (t2, .error e) => (hdr ++ t1 ++ t2, .error e)
    | (t2, .ok _) =>
      match trainvae outdir nhiddens nlatent nepochs batchsize cuda capacity mseratio co with
      | (t3, .error e) => (hdr ++ t1 ++ t2 ++ t3, .error e)
      | (t3, .ok _) =>
        match cluster outdir maxclusters minclustersize co with
        | (t4, .error e) => (hdr ++ t1 ++ t2 ++ t3 ++ t4, .error e)
        | (t4, .ok _) =>
            (hdr ++ t1 ++ t2 ++ t3 ++ t4 ++ [Ev.log "Completed Vamb in seconds"], .ok ())

/-- The exact argument vector passed to `main` at the call site
(run.py lines 248-261). -/
structure MainArgs where
  outdir : String
  fasta : String
  bamfiles : List String
  mincontiglength : Int
  minalignscore : Int
  subprocesses : Int
  nhiddens : List Int
  nlatent : Int
  nepochs : Int
  batchsize : Int
  capacity : ℚ
  mseratio : ℚ
  cuda : Bool
  minclustersize : Int
  maxclusters : Int
  deriving DecidableEq

/-- The projection of the parsed arguments onto the `main` call site
(run.py lines 248-261): every field of `Args` except `tandem`. -/
def mainArgs (a : Args) : MainArgs where
  outdir := a.outdir
  fasta := a.fasta
  bamfiles := a.bamfiles
  mincontiglength := a.minlength
  minalignscore := a.minascore
  subprocesses := a.subprocesses
  nhiddens := a.nhiddens
  nlatent := a.nlatent
  nepochs := a.nepochs
  batchsize := a.batchsize
  capacity := a.capacity
  mseratio := Args.mseratio a
  cuda := a.cuda
  minclustersize := a.minsize
  maxclusters := a.maxclusters

/-- run.py module level after argument parsing (lines 187-261): run the
validation block; if it raises, nothing else happens; otherwise create
the output directory with `os.mkdir`, open the log file (creating
log.txt), and run `main`. -/
def runScript (env : Env) (a : Args) (co : Collab) : List Ev × Except Err Unit :=
  match validate env a with
  | some e => ([], .error e)
  | none =>
    let pre := [Ev.mkdir a.outdir, Ev.write (joinPath a.outdir "log.txt")]
    match main a.outdir a.fasta a.bamfiles a.minlength a.minascore a.subprocesses
        a.nhiddens a.nlatent a.nepochs a.batchsize a.cuda a.capacity (Args.mseratio a)
        a.minsize a.maxclusters co with
    | (tr, r) => (pre ++ tr, r)

/-- The file paths written during a trace, in order. -/
def writesOf (tr : List Ev) : List String :=
  tr.filterMap (fun ev => match ev with | Ev.write p => some p | _ => none)

/-- Whether `needle` is a prefix of `hay`, by character comparison. -/
def startsWith : List Char → List Char → Bool
  | [], _ => true
  | _ :: _, [] => false
  | a :: as, b :: bs => a == b && startsWith as bs

/-- Whether `needle` occurs as a contiguous substring of `hay`, the model
of the Python `in` operator on strings. -/
def containsSub (needle : List Char) : List Char → Bool
  | [] => startsWith needle []
  | c :: cs => startsWith needle (c :: cs) || containsSub needle cs

/-- A concrete environment: the FASTA file and one BAM file exist, the
current directory is the only directory, no accelerator. -/
def envOK : Env where
  pathExists := fun p => p == "contigs.fna" || p == "a.bam"
  isdir := fun p => p == "."
  isfile := fun p => p == "contigs.fna" || p == "a.bam"
  cudaAvailable := false
  cpuCount := 8

/-- The same environment with the output directory already present. -/
def envExistingOut : Env :=
  { envOK with pathExists := fun p => p == "out" }

/-- A concrete argument record that passes every validation check in
`envOK`. -/
def argsOK : Args where
  outdir := "out"
  fasta := "contigs.fna"
  bamfiles := ["a.bam"]
  minlength := 100
  minascore := 50
  subprocesses := 4
  nhiddens := [325, 325, 325]
  nlatent := 40
  nepochs := 400
  batchsize := 128
  capacity := 1000
  mseratio := mkRat 1 5
  cuda := false
  tandem := false
  minsize := 1
  maxclusters := -1

/-- Variant of `argsOK` with an output path below a nonexistent parent directory. -/
def argsSubdir : Args := { argsOK with outdir := "sub/out" }

/-- Variant of `argsOK` with a zero-width hidden layer. -/
def argsBadHidden : Args := { argsOK with nhiddens := [0] }

/-- Variant of `argsOK` with a nonpositive latent dimension. -/
def argsBadLatent : Args := { argsOK with nlatent := 0 }

/-- Collaborators that all succeed, with agreeing contig counts. -/
def collabOK : Collab where
  read_contigs := .ok 10
  read_bamfiles := .ok 10
  encode_trainvae := .ok ()
  vae_encode := .ok ()
  cluster_iterator := .ok 3
  write_clusters := .ok 10

/-- Collaborators where the coverage row count disagrees with the contig
count. -/
def collabMismatch : Collab := { collabOK with read_bamfiles := .ok 8 }

/-- Collaborators where contig parsing itself raises. -/
def collabTnfFail : Collab :=
  { collabOK with read_contigs := .error (Err.valueError "boom") }

/-- Variant of `argsOK` with a second, zero-width hidden layer. -/
def argsBadHidden2 : Args := { argsOK with nhiddens := [325, 0] }

/-- If a string has no slash then the model of `os.path.dirname` returns
the empty string, as `posixpath.dirname` does on a bare name. -/
theorem dirname_of_no_slash (p : String) (h : ∀ c ∈ p.data, c ≠ '/') :
    dirname p = "" := by
  have hfind : p.data.reverse.findIdx? (fun c => c == '/') = none := by
    rw [List.findIdx?_eq_none_iff]
    intro c hc
    simp [h c (List.mem_reverse.mp hc)]
  simp [dirname, lastSlashIdx, hfind]

/-- Acceptance characterization of the output-directory checks. -/
theorem check_outdir_eq_none (env : Env) (a : Args) :
    check_outdir env a = none ↔
      env.pathExists a.outdir = false ∧
      (dirname a.outdir = "" ∨ env.isdir (dirname a.outdir) = true) := by
  unfold check_outdir
  split_ifs with h1 h2
  all_goals simp_all
  all_goals tauto

/-- Acceptance characterization of the input-file checks. -/
theorem check_infiles_eq_none (env : Env) (a : Args) :
    check_infiles env a = none ↔
      env.isfile a.fasta = true ∧ ∀ b ∈ a.bamfiles, env.isfile b = true := by
  unfold check_infiles
  cases hf : a.bamfiles.find? (fun b => ! env.isfile b) with
  | some b =>
    have hb : env.isfile b = false := by simpa using List.find?_some hf
    have hmem := List.mem_of_find?_eq_some hf
    have hrhs : ¬ (∀ x ∈ a.bamfiles, env.isfile x = true) := by
      intro hall
      rw [hall b hmem] at hb
      exact Bool.noConfusion hb
    split_ifs <;> simp_all
  | none =>
    rw [List.find?_eq_none] at hf
    split_ifs <;> simp_all

/-- Acceptance characterization of the TNF/BAM argument checks. -/
theorem check_tnf_bam_args_eq_none (a : Args) :
    check_tnf_bam_args a = none ↔
      100 ≤ a.minlength ∧ 1 ≤ a.subprocesses ∧ 0 ≤ a.minascore := by
  unfold check_tnf_bam_args
  split_ifs
  all_goals simp_all [not_lt]

/-- Acceptance characterization of the training-option checks. -/
theorem check_training_eq_none (env : Env) (a : Args) :
    check_training env a = none ↔
      (∀ i ∈ a.nhiddens, 1 ≤ i) ∧ 1 ≤ a.nlatent ∧ 1 ≤ a.nepochs ∧
      1 ≤ a.batchsize ∧ 0 ≤ a.capacity ∧
      (0 < Args.mseratio a ∧ Args.mseratio a < 1) ∧
      (a.cuda = true → env.cudaAvailable = true) := by
  unfold check_training
  split_ifs
  all_goals simp_all [not_lt, not_or, not_le]
  all_goals rename_i hmr
  all_goals intro hgt hlt
  all_goals exfalso
  all_goals rcases hmr with hc | hc
  all_goals linarith

/-- Acceptance characterization of the clustering-option check. -/
theorem check_clustering_eq_none (a : Args) :
    check_clustering a = none ↔ 1 ≤ a.minsize := by
  unfold check_clustering
  split_ifs
  all_goals simp_all [not_lt]

/-- The function `validate` accepts exactly when all five check sections accept. -/
theorem validate_eq_none_iff (env : Env) (a : Args) :
    validate env a = none ↔
      check_outdir env a = none ∧ check_infiles env a = none ∧
      check_tnf_bam_args a = none ∧ check_training env a = none ∧
      check_clustering a = none := by
  unfold validate
  repeat' split
  all_goals simp_all

/-- The input-file checks never produce NotADirectoryError. -/
theorem check_infiles_no_notadir (env : Env) (a : Args) (p : String) :
    check_infiles env a ≠ some (Err.notADirectoryError p) := by
  unfold check_infiles
  repeat' split
  all_goals simp

/-- The TNF/BAM argument checks never produce NotADirectoryError. -/
theorem check_tnf_bam_args_no_notadir (a : Args) (p : String) :
    check_tnf_bam_args a ≠ some (Err.notADirectoryError p) := by
  unfold check_tnf_bam_args
  repeat' split
  all_goals simp

/-- The training-option checks never produce NotADirectoryError. -/
theorem check_training_no_notadir (env : Env) (a : Args) (p : String) :
    check_training env a ≠ some (Err.notADirectoryError p) := by
  unfold check_training
  repeat' split
  all_goals simp

/-- The clustering-option check never produces NotADirectoryError. -/
theorem check_clustering_no_notadir (a : Args) (p : String) :
    check_clustering a ≠ some (Err.notADirectoryError p) := by
  unfold check_clustering
  repeat' split
  all_goals simp

/-- A NotADirectoryError from `validate` can only originate in the
output-directory checks. -/
theorem validate_notadir_source (env : Env) (a : Args) (p : String)
    (h : validate env a = some (Err.notADirectoryError p)) :
    check_outdir env a = some (Err.notADirectoryError p) := by
  unfold validate at h
  repeat' split at h
  all_goals rename_i heq
  all_goals first
    | exact heq.trans h
    | exact absurd (heq.trans h) (check_infiles_no_notadir env a p)
    | exact absurd (heq.trans h) (check_tnf_bam_args_no_notadir a p)
    | exact absurd (heq.trans h) (check_training_no_notadir env a p)
    | exact absurd h (check_clustering_no_notadir a p)

/-- Claim C6: when no CLI options are given the defaults are: minimum
contig length 100, minimum alignment score 50, subprocess count
min(8, cpu count), hidden layer widths [325, 325, 325], latent dimension
40, epochs 400, batch size 128, capacity 1000.0, weighting ratio
0.2 = 1/5, minimum cluster size 1, and maximum cluster count -1. -/
theorem c6_defaults_fixed (outdir fasta : String) (bamfiles : List String) (ncpu : Nat) :
    (defaultArgs outdir fasta bamfiles ncpu).minlength = 100 ∧
    (defaultArgs outdir fasta bamfiles ncpu).minascore = 50 ∧
    (defaultArgs outdir fasta bamfiles ncpu).subprocesses = ((min 8 ncpu : Nat) : Int) ∧
    (defaultArgs outdir fasta bamfiles ncpu).nhiddens = [325, 325, 325] ∧
    (defaultArgs outdir fasta bamfiles ncpu).nlatent = 40 ∧
    (defaultArgs outdir fasta bamfiles ncpu).nepochs = 400 ∧
    (defaultArgs outdir fasta bamfiles ncpu).batchsize = 128 ∧
    (defaultArgs outdir fasta bamfiles ncpu).capacity = 1000 ∧
    Args.mseratio (defaultArgs outdir fasta bamfiles ncpu) = 1 / 5 ∧
    (defaultArgs outdir fasta bamfiles ncpu).minsize = 1 ∧
    (defaultArgs outdir fasta bamfiles ncpu).maxclusters = -1 := by
  refine ⟨rfl, rfl, ?_, rfl, rfl, rfl, rfl, ?_, ?_, rfl, rfl⟩
  · simp [defaultArgs, DEFAULT_PROCESSES, Nat.min_comm]
  · norm_num [defaultArgs]
  · norm_num [defaultArgs]

/-- Claim C2: if any validation check fails, the script raises before the
output directory is created: the run produces an empty event trace (in
particular no mkdir and no file write) and propagates the validation
error. -/
theorem c2_validation_fails_before_mkdir (env : Env) (a : Args) (co : Collab) (e : Err)
    (h : validate env a = some e) : runScript env a co = ([], Except.error e) := by
  simp [runScript, h]

/-- Witness for C2: with the output directory already existing, the run
produces no events and raises FileExistsError. -/
theorem c2_validation_fails_before_mkdir_witness :
    validate envExistingOut argsOK = some (Err.fileExistsError "out") ∧
    runScript envExistingOut argsOK collabOK = ([], Except.error (Err.fileExistsError "out")) :=
  ⟨by rfl, c2_validation_fails_before_mkdir envExistingOut argsOK collabOK _ (by rfl)⟩

/-- Claim C9: the --tandem flag parsed at run.py line 170 is never read
again: the argument vector passed to `main` and the whole observable run
are identical whatever its value. -/
theorem c9_tandem_inert (env : Env) (a : Args) (t : Bool) (co : Collab) :
    mainArgs { a with tandem := t } = mainArgs a ∧
    runScript env { a with tandem := t } co = runScript env a co :=
  ⟨rfl, rfl⟩

/-- Claim C10: when the output directory path contains no separator,
`os.path.dirname` returns the empty string, the empty string is falsy,
and so the parent-directory branch can never raise: `validate` never
returns NotADirectoryError, whatever the environment. -/
theorem c10_bare_outdir_skips_parent_check (env : Env) (a : Args) (p : String)
    (h : ∀ c ∈ a.outdir.data, c ≠ '/') :
    dirname a.outdir = "" ∧ validate env a ≠ some (Err.notADirectoryError p) := by
  have hd : dirname a.outdir = "" := dirname_of_no_slash _ h
  refine ⟨hd, ?_⟩
  intro hcontra
  have hout := validate_notadir_source env a p hcontra
  unfold check_outdir at hout
  rw [hd] at hout
  split at hout
  · exact Err.noConfusion (Option.some.inj hout)
  · split at hout
    · simp_all
    · exact Option.noConfusion hout

/-- Witness for C10: for the bare output name of `argsOK` the parent
check is skipped and no NotADirectoryError can be produced. -/
theorem c10_bare_outdir_skips_parent_check_witness :
    dirname (Args.outdir argsOK) = "" ∧
    validate envOK argsOK ≠ some (Err.notADirectoryError "x") :=
  c10_bare_outdir_skips_parent_check envOK argsOK "x" (by decide)

/-- Claim C8: with the path and IO checks passing, a hidden-layer width
below 1 makes the script raise AttributeError (the message format reads
the nonexistent attribute args.hidden), and with all widths at least 1 a
latent dimension below 1 raises AttributeError for args.latent — in both
cases not the intended descriptive ArgumentTypeError. -/
theorem c8_hidden_latent_raise_attributeerror (env : Env) (a : Args)
    (h1 : env.pathExists a.outdir = false)
    (h2 : dirname a.outdir = "" ∨ env.isdir (dirname a.outdir) = true)
    (h3 : env.isfile a.fasta = true)
    (h4 : ∀ b ∈ a.bamfiles, env.isfile b = true)
    (h5 : 100 ≤ a.minlength) (h6 : 1 ≤ a.subprocesses) (h7 : 0 ≤ a.minascore) :
    ((∃ i ∈ a.nhiddens, i < 1) → validate env a = some (Err.attributeError "hidden")) ∧
    ((∀ i ∈ a.nhiddens, 1 ≤ i) → a.nlatent < 1 →
      validate env a = some (Err.attributeError "latent")) := by
  have ho : check_outdir env a = none := (check_outdir_eq_none env a).mpr ⟨h1, h2⟩
  have hi : check_infiles env a = none := (check_infiles_eq_none env a).mpr ⟨h3, h4⟩
  have ht : check_tnf_bam_args a = none := (check_tnf_bam_args_eq_none a).mpr ⟨h5, h6, h7⟩
  constructor
  · intro hex
    have ha : a.nhiddens.any (fun i => decide (i < 1)) = true := by
      rw [List.any_eq_true]
      obtain ⟨i, hi', hlt⟩ := hex
      exact ⟨i, hi', by simpa using hlt⟩
    simp [validate, ho, hi, ht, check_training, ha]
  · intro hall hl
    have ha : a.nhiddens.any (fun i => decide (i < 1)) = false := by
      rw [List.any_eq_false]
      intro i hi'
      simpa using not_lt.mpr (hall i hi')
    simp [validate, ho, hi, ht, check_training, ha, hl]

/-- Witness for C8: a zero-width hidden layer and a zero latent dimension
each raise the AttributeError, not an ArgumentTypeError. -/
theorem c8_hidden_latent_raise_attributeerror_witness :
    validate envOK argsBadHidden = some (Err.attributeError "hidden") ∧
    validate envOK argsBadLatent = some (Err.attributeError "latent") := by
  constructor
  · exact (c8_hidden_latent_raise_attributeerror envOK argsBadHidden (by decide) (Or.inl (by decide))
      (by decide) (by decide) (by decide) (by decide) (by decide)).1 ⟨0, by decide, by decide⟩
  · exact (c8_hidden_latent_raise_attributeerror envOK argsBadLatent (by decide) (Or.inl (by decide))
      (by decide) (by decide) (by decide) (by decide) (by decide)).2 (by decide) (by decide)

/-- Claim C3 counterexample: (i) an input satisfying every condition in
the claim's list is still rejected, because the output path has a parent
directory component that is not an existing directory — a check the list
omits;  (ii) a zero-width hidden layer is rejected with AttributeError
naming no field, not with a descriptive error identifying the offending
field. -/
theorem c3_rejects_unlisted_counterexample :
    validate envOK argsSubdir = some (Err.notADirectoryError "sub") ∧
    (envOK.pathExists (Args.outdir argsSubdir) = false ∧
     envOK.isfile (Args.fasta argsSubdir) = true ∧
     (∀ b ∈ Args.bamfiles argsSubdir, envOK.isfile b = true) ∧
     100 ≤ Args.minlength argsSubdir ∧ 1 ≤ Args.subprocesses argsSubdir ∧
     0 ≤ Args.minascore argsSubdir ∧ (∀ i ∈ Args.nhiddens argsSubdir, 1 ≤ i) ∧
     1 ≤ Args.nlatent argsSubdir ∧ 1 ≤ Args.nepochs argsSubdir ∧
     1 ≤ Args.batchsize argsSubdir ∧ 0 ≤ Args.capacity argsSubdir ∧
     0 < Args.mseratio argsSubdir ∧ Args.mseratio argsSubdir < 1 ∧
     Args.cuda argsSubdir = false ∧ 1 ≤ Args.minsize argsSubdir) ∧
    validate envOK argsBadHidden2 = some (Err.attributeError "hidden") := by
  refine ⟨by rfl, by decide, by rfl⟩

/-- Claim C3 amended: validation accepts exactly when the output
directory does not already exist, its parent component (when nonempty) is
an existing directory, the input and alignment paths are files, the
minimum contig length is at least 100, the subprocess count at least 1,
the alignment-score floor nonnegative, every hidden width and the latent
dimension and the epoch count and the batch size at least 1, the capacity
nonnegative, the weighting ratio strictly between 0 and 1, acceleration
is only requested when available, and the minimum cluster size at least
1; the rejections for bad hidden widths or latent dimension raise
AttributeError rather than an error naming the field. -/
theorem c3_validation_rejects_exactly (env : Env) (a : Args) :
    validate env a = none ↔
      (env.pathExists a.outdir = false ∧
       (dirname a.outdir = "" ∨ env.isdir (dirname a.outdir) = true) ∧
       env.isfile a.fasta = true ∧
       (∀ b ∈ a.bamfiles, env.isfile b = true) ∧
       100 ≤ a.minlength ∧ 1 ≤ a.subprocesses ∧ 0 ≤ a.minascore ∧
       (∀ i ∈ a.nhiddens, 1 ≤ i) ∧ 1 ≤ a.nlatent ∧ 1 ≤ a.nepochs ∧
       1 ≤ a.batchsize ∧ 0 ≤ a.capacity ∧
       (0 < Args.mseratio a ∧ Args.mseratio a < 1) ∧
       (a.cuda = true → env.cudaAvailable = true) ∧ 1 ≤ a.minsize) := by
  rw [validate_eq_none_iff, check_outdir_eq_none, check_infiles_eq_none,
      check_tnf_bam_args_eq_none, check_training_eq_none, check_clustering_eq_none]
  tauto

/-- Claim C5: on every successful run the files written, in order, are
the run log, the features artifact, the coverage artifact, the model
checkpoint, the latent embedding and the cluster report — fixed names
under the output directory, independent of all inputs. -/
theorem c5_artifact_names_fixed (env : Env) (a : Args) (co : Collab)
    (h : (runScript env a co).2 = Except.ok ()) :
    writesOf (runScript env a co).1 =
      [joinPath a.outdir "log.txt", joinPath a.outdir "tnf.npz",
       joinPath a.outdir "rpkm.npz", joinPath a.outdir "model.pt",
       joinPath a.outdir "latent.npz", joinPath a.outdir "clusters.tsv"] := by
  rcases co with ⟨rc, rb, et, ve, ci, wc⟩
  cases hv : validate env a with
  | some e => simp [runScript, hv] at h
  | none =>
    cases rc with
    | error e => simp [runScript, hv, main, calc_tnf] at h
    | ok n =>
      cases rb with
      | error e => simp [runScript, hv, main, calc_tnf, calc_rpkm] at h
      | ok m =>
        by_cases hnm : m = n
        · subst hnm
          cases et with
          | error e => simp [runScript, hv, main, calc_tnf, calc_rpkm, trainvae] at h
          | ok u =>
            cases ve with
            | error e => simp [runScript, hv, main, calc_tnf, calc_rpkm, trainvae] at h
            | ok v =>
              cases ci with
              | error e =>
                  simp [runScript, hv, main, calc_tnf, calc_rpkm, trainvae, cluster] at h
              | ok k =>
                cases wc with
                | error e =>
                    simp [runScript, hv, main, calc_tnf, calc_rpkm, trainvae, cluster] at h
                | ok k2 =>
                    simp [runScript, hv, main, calc_tnf, calc_rpkm, trainvae, cluster,
                          writesOf]
        · simp [runScript, hv, main, calc_tnf, calc_rpkm, hnm] at h

/-- Witness for C5: the all-success run writes exactly the six fixed
artifact paths under "out". -/
theorem c5_artifact_names_fixed_witness :
    (runScript envOK argsOK collabOK).2 = Except.ok () ∧
    writesOf (runScript envOK argsOK collabOK).1 =
      [joinPath "out" "log.txt", joinPath "out" "tnf.npz", joinPath "out" "rpkm.npz",
       joinPath "out" "model.pt", joinPath "out" "latent.npz", joinPath "out" "clusters.tsv"] :=
  ⟨by rfl, c5_artifact_names_fixed envOK argsOK collabOK (by rfl)⟩

/-- Claim C7: any error raised by a collaborator escapes the run as the
same error (no swallowing, no translation), and the failing stage's
start line — naming the stage — is in the log trace. -/
theorem c7_stage_errors_propagate (env : Env) (a : Args) (co : Collab) (e : Err)
    (hv : validate env a = none) :
    (co.read_contigs = .error e →
      (runScript env a co).2 = .error e ∧
      Ev.log "Calculating TNF" ∈ (runScript env a co).1) ∧
    (∀ n, co.read_contigs = .ok n → co.read_bamfiles = .error e →
      (runScript env a co).2 = .error e ∧
      Ev.log "Calculating RPKM" ∈ (runScript env a co).1) ∧
    (∀ n, co.read_contigs = .ok n → co.read_bamfiles = .ok n →
      co.encode_trainvae = .error e →
      (runScript env a co).2 = .error e ∧
      Ev.log "Training VAE" ∈ (runScript env a co).1) ∧
    (∀ n, co.read_contigs = .ok n → co.read_bamfiles = .ok n →
      co.encode_trainvae = .ok () → co.vae_encode = .error e →
      (runScript env a co).2 = .error e ∧
      Ev.log "Training VAE" ∈ (runScript env a co).1) ∧
    (∀ n, co.read_contigs = .ok n → co.read_bamfiles = .ok n →
      co.encode_trainvae = .ok () → co.vae_encode = .ok () →
      co.cluster_iterator = .error e →
      (runScript env a co).2 = .error e ∧
      Ev.log "Clustering" ∈ (runScript env a co).1) ∧
    (∀ n k, co.read_contigs = .ok n → co.read_bamfiles = .ok n →
      co.encode_trainvae = .ok () → co.vae_encode = .ok () →
      co.cluster_iterator = .ok k → co.write_clusters = .error e →
      (runScript env a co).2 = .error e ∧
      Ev.log "Clustering" ∈ (runScript env a co).1) := by
  refine ⟨?_, ?_, ?_, ?_, ?_, ?_⟩
  · intro h1
    simp [runScript, hv, main, calc_tnf, h1]
  · intro n h1 h2
    simp [runScript, hv, main, calc_tnf, calc_rpkm, h1, h2]
  · intro n h1 h2 h3
    simp [runScript, hv, main, calc_tnf, calc_rpkm, trainvae, h1, h2, h3]
  · intro n h1 h2 h3 h4
    simp [runScript, hv, main, calc_tnf, calc_rpkm, trainvae, h1, h2, h3, h4]
  · intro n h1 h2 h3 h4 h5
    simp [runScript, hv, main, calc_tnf, calc_rpkm, trainvae, cluster, h1, h2, h3, h4, h5]
  · intro n k h1 h2 h3 h4 h5 h6
    simp [runScript, hv, main, calc_tnf, calc_rpkm, trainvae, cluster,
          h1, h2, h3, h4, h5, h6]

/-- Witness for C7: a ValueError from contig parsing escapes the run
unchanged, with the TNF stage line logged. -/
theorem c7_stage_errors_propagate_witness :
    (runScript envOK argsOK collabTnfFail).2 = .error (Err.valueError "boom") ∧
    Ev.log "Calculating TNF" ∈ (runScript envOK argsOK collabTnfFail).1 :=
  (c7_stage_errors_propagate envOK argsOK collabTnfFail (Err.valueError "boom")
    (by rfl)).1 (by rfl)

/-- Claim C1 counterexample: with a contig count of 10 and a coverage row
count of 8 the run fails with the fixed-message ValueError of run.py
lines 41-43; that message contains neither the substring "10" nor "8", so
the raised error does not name the two mismatching counts. -/
theorem c1_mismatch_message_counterexample :
    (runScript envOK argsOK collabMismatch).2 = Except.error (Err.valueError mismatchMsg) ∧
    containsSub (String.data "10") (String.data mismatchMsg) = false ∧
    containsSub (String.data "8") (String.data mismatchMsg) = false ∧
    Ev.callStage "encode.trainvae" ∉ (runScript envOK argsOK collabMismatch).1 := by
  refine ⟨by rfl, by decide, by decide, by decide⟩

/-- Claim C1 amended: if validation passes, feature extraction yields
contig count n and coverage parsing yields row count m with n ≠ m, the
run fails with the fixed-message ValueError (which names neither count)
and the embedding collaborator is never invoked. -/
theorem c1_mismatch_fails_before_embedding (env : Env) (a : Args) (co : Collab)
    (n m : Nat) (hv : validate env a = none)
    (hn : co.read_contigs = .ok n) (hm : co.read_bamfiles = .ok m) (hne : n ≠ m) :
    (runScript env a co).2 = Except.error (Err.valueError mismatchMsg) ∧
    Ev.callStage "encode.trainvae" ∉ (runScript env a co).1 := by
  have hmn : m ≠ n := Ne.symm hne
  simp only [runScript, hv]
  simp only [main, calc_tnf, hn, calc_rpkm, hm]
  simp [hmn]

/-- Witness for the amended C1 at counts 10 and 8. -/
theorem c1_mismatch_fails_before_embedding_witness :
    (runScript envOK argsOK collabMismatch).2 = Except.error (Err.valueError mismatchMsg) ∧
    Ev.callStage "encode.trainvae" ∉ (runScript envOK argsOK collabMismatch).1 :=
  c1_mismatch_fails_before_embedding envOK argsOK collabMismatch 10 8
    (by rfl) (by rfl) (by rfl) (by decide)

/-- Claim C4: stages execute in the fixed order and no stage begins until
the previous artifact is persisted: whenever the coverage collaborator is
invoked, tnf.npz was written earlier in the trace; whenever the embedding
collaborator is invoked, rpkm.npz was written earlier; and whenever the
clustering collaborator is invoked, latent.npz was written earlier. -/
theorem c4_stage_order (env : Env) (a : Args) (co : Collab) :
    (Ev.callStage "read_bamfiles" ∈ (runScript env a co).1 →
      ∃ l1 l2, (runScript env a co).1 =
          l1 ++ Ev.write (joinPath a.outdir "tnf.npz") :: l2 ∧
        Ev.callStage "read_bamfiles" ∈ l2) ∧
    (Ev.callStage "encode.trainvae" ∈ (runScript env a co).1 →
      ∃ l1 l2, (runScript env a co).1 =
          l1 ++ Ev.write (joinPath a.outdir "rpkm.npz") :: l2 ∧
        Ev.callStage "encode.trainvae" ∈ l2) ∧
    (Ev.callStage "cluster.cluster" ∈ (runScript env a co).1 →
      ∃ l1 l2, (runScript env a co).1 =
          l1 ++ Ev.write (joinPath a.outdir "latent.npz") :: l2 ∧
        Ev.callStage "cluster.cluster" ∈ l2) := by
  rcases co with ⟨rc, rb, et, ve, ci, wc⟩
  cases hv : validate env a with
  | some e => simp [runScript, hv]
  | none =>
    cases rc with
    | error e =>
        have htr : (runScript env a (Collab.mk (Except.error e) rb et ve ci wc)).1 =
            [Ev.mkdir a.outdir,
             Ev.write (joinPath a.outdir "log.txt"),
             Ev.log "Starting Vamb version",
             Ev.log "Calculating TNF",
             Ev.callStage "read_contigs"] := by
          simp [runScript, hv, main, calc_tnf, calc_rpkm, trainvae, cluster]
        rw [htr]
        exact ⟨fun hmem => absurd hmem (by simp),
          fun hmem => absurd hmem (by simp),
          fun hmem => absurd hmem (by simp)⟩
    | ok n =>
      cases rb with
      | error e =>
        have htr : (runScript env a (Collab.mk (Except.ok n) (Except.error e) et ve ci wc)).1 =
            [Ev.mkdir a.outdir,
             Ev.write (joinPath a.outdir "log.txt"),
             Ev.log "Starting Vamb version",
             Ev.log "Calculating TNF",
             Ev.callStage "read_contigs",
             Ev.write (joinPath a.outdir "tnf.npz"),
             Ev.log "Processed bases in contigs",
             Ev.log "Calculated TNF in seconds",
             Ev.log "Calculating RPKM",
             Ev.log "Parsing BAM files with subprocesses",
             Ev.callStage "read_bamfiles"] := by
          simp [runScript, hv, main, calc_tnf, calc_rpkm, trainvae, cluster]
        rw [htr]
        exact ⟨fun _ =>
            ⟨[Ev.mkdir a.outdir,
             Ev.write (joinPath a.outdir "log.txt"),
             Ev.log "Starting Vamb version",
             Ev.log "Calculating TNF",
             Ev.callStage "read_contigs"],
             [Ev.log "Processed bases in contigs",
              Ev.log "Calculated TNF in seconds",
              Ev.log "Calculating RPKM",
              Ev.log "Parsing BAM files with subprocesses",
              Ev.callStage "read_bamfiles"], by simp, by simp⟩,
          fun hmem => absurd hmem (by simp),
          fun hmem => absurd hmem (by simp)⟩
      | ok m =>
        by_cases hnm : m = n
        · subst hnm
          cases et with
          | error e =>
            have htr : (runScript env a (Collab.mk (Except.ok m) (Except.ok m) (Except.error e) ve ci wc)).1 =
                [Ev.mkdir a.outdir,
                 Ev.write (joinPath a.outdir "log.txt"),
                 Ev.log "Starting Vamb version",
                 Ev.log "Calculating TNF",
                 Ev.callStage "read_contigs",
                 Ev.write (joinPath a.outdir "tnf.npz"),
                 Ev.log "Processed bases in contigs",
                 Ev.log "Calculated TNF in seconds",
                 Ev.log "Calculating RPKM",
                 Ev.log "Parsing BAM files with subprocesses",
                 Ev.callStage "read_bamfiles",
                 Ev.write (joinPath a.outdir "rpkm.npz"),
                 Ev.log "Calculated RPKM in seconds",
                 Ev.log "Training VAE",
                 Ev.callStage "encode.trainvae"] := by
              simp [runScript, hv, main, calc_tnf, calc_rpkm, trainvae, cluster]
            rw [htr]
            exact ⟨fun _ =>
                ⟨[Ev.mkdir a.outdir,
                 Ev.write (joinPath a.outdir "log.txt"),
                 Ev.log "Starting Vamb version",
                 Ev.log "Calculating TNF",
                 Ev.callStage "read_contigs"],
                 [Ev.log "Processed bases in contigs",
                  Ev.log "Calculated TNF in seconds",
                  Ev.log "Calculating RPKM",
                  Ev.log "Parsing BAM files with subprocesses",
                  Ev.callStage "read_bamfiles",
                  Ev.write (joinPath a.outdir "rpkm.npz"),
                  Ev.log "Calculated RPKM in seconds",
                  Ev.log "Training VAE",
                  Ev.callStage "encode.trainvae"], by simp, by simp⟩,
              fun _ =>
                ⟨[Ev.mkdir a.outdir,
                 Ev.write (joinPath a.outdir "log.txt"),
                 Ev.log "Starting Vamb version",
                 Ev.log "Calculating TNF",
                 Ev.callStage "read_contigs",
                 Ev.write (joinPath a.outdir "tnf.npz"),
                 Ev.log "Processed bases in contigs",
                 Ev.log "Calculated TNF in seconds",
                 Ev.log "Calculating RPKM",
                 Ev.log "Parsing BAM files with subprocesses",
                 Ev.callStage "read_bamfiles"],
                 [Ev.log "Calculated RPKM in seconds",
                  Ev.log "Training VAE",
                  Ev.callStage "encode.trainvae"], by simp, by simp⟩,
              fun hmem => absurd hmem (by simp)⟩
          | ok u =>
            cases ve with
            | error e =>
              have htr : (runScript env a (Collab.mk (Except.ok m) (Except.ok m) (Except.ok u) (Except.error e) ci wc)).1 =
                  [Ev.mkdir a.outdir,
                   Ev.write (joinPath a.outdir "log.txt"),
                   Ev.log "Starting Vamb version",
                   Ev.log "Calculating TNF",
                   Ev.callStage "read_contigs",
                   Ev.write (joinPath a.outdir "tnf.npz"),
                   Ev.log "Processed bases in contigs",
                   Ev.log "Calculated TNF in seconds",
                   Ev.log "Calculating RPKM",
                   Ev.log "Parsing BAM files with subprocesses",
                   Ev.callStage "read_bamfiles",
                   Ev.write (joinPath a.outdir "rpkm.npz"),
                   Ev.log "Calculated RPKM in seconds",
                   Ev.log "Training VAE",
                   Ev.callStage "encode.trainvae",
                   Ev.write (joinPath a.outdir "model.pt"),
                   Ev.callStage "vae.encode"] := by
                simp [runScript, hv, main, calc_tnf, calc_rpkm, trainvae, cluster]
              rw [htr]
              exact ⟨fun _ =>
                  ⟨[Ev.mkdir a.outdir,
                   Ev.write (joinPath a.outdir "log.txt"),
                   Ev.log "Starting Vamb version",
                   Ev.log "Calculating TNF",
                   Ev.callStage "read_contigs"],
                   [Ev.log "Processed bases in contigs",
                    Ev.log "Calculated TNF in seconds",
                    Ev.log "Calculating RPKM",
                    Ev.log "Parsing BAM files with subprocesses",
                    Ev.callStage "read_bamfiles",
                    Ev.write (joinPath a.outdir "rpkm.npz"),
                    Ev.log "Calculated RPKM in seconds",
                    Ev.log "Training VAE",
                    Ev.callStage "encode.trainvae",
                    Ev.write (joinPath a.outdir "model.pt"),
                    Ev.callStage "vae.encode"], by simp, by simp⟩,
                fun _ =>
                  ⟨[Ev.mkdir a.outdir,
                   Ev.write (joinPath a.outdir "log.txt"),
                   Ev.log "Starting Vamb version",
                   Ev.log "Calculating TNF",
                   Ev.callStage "read_contigs",
                   Ev.write (joinPath a.outdir "tnf.npz"),
                   Ev.log "Processed bases in contigs",
                   Ev.log "Calculated TNF in seconds",
                   Ev.log "Calculating RPKM",
                   Ev.log "Parsing BAM files with subprocesses",
                   Ev.callStage "read_bamfiles"],
                   [Ev.log "Calculated RPKM in seconds",
                    Ev.log "Training VAE",
                    Ev.callStage "encode.trainvae",
                    Ev.write (joinPath a.outdir "model.pt"),
                    Ev.callStage "vae.encode"], by simp, by simp⟩,
                fun hmem => absurd hmem (by simp)⟩
            | ok v =>
              cases ci with
              | error e =>
                have htr : (runScript env a (Collab.mk (Except.ok m) (Except.ok m) (Except.ok u) (Except.ok v) (Except.error e) wc)).1 =
                    [Ev.mkdir a.outdir,
                     Ev.write (joinPath a.outdir "log.txt"),
                     Ev.log "Starting Vamb version",
                     Ev.log "Calculating TNF",
                     Ev.callStage "read_contigs",
                     Ev.write (joinPath a.outdir "tnf.npz"),
                     Ev.log "Processed bases in contigs",
                     Ev.log "Calculated TNF in seconds",
                     Ev.log "Calculating RPKM",
                     Ev.log "Parsing BAM files with subprocesses",
                     Ev.callStage "read_bamfiles",
                     Ev.write (joinPath a.outdir "rpkm.npz"),
                     Ev.log "Calculated RPKM in seconds",
                     Ev.log "Training VAE",
                     Ev.callStage "encode.trainvae",
                     Ev.write (joinPath a.outdir "model.pt"),
                     Ev.callStage "vae.encode",
                     Ev.write (joinPath a.outdir "latent.npz"),
                     Ev.log "Trained VAE and encoded in seconds",
                     Ev.log "Clustering",
                     Ev.callStage "cluster.cluster"] := by
                  simp [runScript, hv, main, calc_tnf, calc_rpkm, trainvae, cluster]
                rw [htr]
                exact ⟨fun _ =>
                    ⟨[Ev.mkdir a.outdir,
                     Ev.write (joinPath a.outdir "log.txt"),
                     Ev.log "Starting Vamb version",
                     Ev.log "Calculating TNF",
                     Ev.callStage "read_contigs"],
                     [Ev.log "Processed bases in contigs",
                      Ev.log "Calculated TNF in seconds",
                      Ev.log "Calculating RPKM",
                      Ev.log "Parsing BAM files with subprocesses",
                      Ev.callStage "read_bamfiles",
                      Ev.write (joinPath a.outdir "rpkm.npz"),
                      Ev.log "Calculated RPKM in seconds",
                      Ev.log "Training VAE",
                      Ev.callStage "encode.trainvae",
                      Ev.write (joinPath a.outdir "model.pt"),
                      Ev.callStage "vae.encode",
                      Ev.write (joinPath a.outdir "latent.npz"),
                      Ev.log "Trained VAE and encoded in seconds",
                      Ev.log "Clustering",
                      Ev.callStage "cluster.cluster"], by simp, by simp⟩,
                  fun _ =>
                    ⟨[Ev.mkdir a.outdir,
                     Ev.write (joinPath a.outdir "log.txt"),
                     Ev.log "Starting Vamb version",
                     Ev.log "Calculating TNF",
                     Ev.callStage "read_contigs",
                     Ev.write (joinPath a.outdir "tnf.npz"),
                     Ev.log "Processed bases in contigs",
                     Ev.log "Calculated TNF in seconds",
                     Ev.log "Calculating RPKM",
                     Ev.log "Parsing BAM files with subprocesses",
                     Ev.callStage "read_bamfiles"],
                     [Ev.log "Calculated RPKM in seconds",
                      Ev.log "Training VAE",
                      Ev.callStage "encode.trainvae",
                      Ev.write (joinPath a.outdir "model.pt"),
                      Ev.callStage "vae.encode",
                      Ev.write (joinPath a.outdir "latent.npz"),
                      Ev.log "Trained VAE and encoded in seconds",
                      Ev.log "Clustering",
                      Ev.callStage "cluster.cluster"], by simp, by simp⟩,
                  fun _ =>
                    ⟨[Ev.mkdir a.outdir,
                     Ev.write (joinPath a.outdir "log.txt"),
                     Ev.log "Starting Vamb version",
                     Ev.log "Calculating TNF",
                     Ev.callStage "read_contigs",
                     Ev.write (joinPath a.outdir "tnf.npz"),
                     Ev.log "Processed bases in contigs",
                     Ev.log "Calculated TNF in seconds",
                     Ev.log "Calculating RPKM",
                     Ev.log "Parsing BAM files with subprocesses",
                     Ev.callStage "read_bamfiles",
                     Ev.write (joinPath a.outdir "rpkm.npz"),
                     Ev.log "Calculated RPKM in seconds",
                     Ev.log "Training VAE",
                     Ev.callStage "encode.trainvae",
                     Ev.write (joinPath a.outdir "model.pt"),
                     Ev.callStage "vae.encode"],
                     [Ev.log "Trained VAE and encoded in seconds",
                      Ev.log "Clustering",
                      Ev.callStage "cluster.cluster"], by simp, by simp⟩⟩
              | ok k =>
                cases wc with
                | error e =>
                  have htr : (runScript env a (Collab.mk (Except.ok m) (Except.ok m) (Except.ok u) (Except.ok v) (Except.ok k) (Except.error e))).1 =
                      [Ev.mkdir a.outdir,
                       Ev.write (joinPath a.outdir "log.txt"),
                       Ev.log "Starting Vamb version",
                       Ev.log "Calculating TNF",
                       Ev.callStage "read_contigs",
                       Ev.write (joinPath a.outdir "tnf.npz"),
                       Ev.log "Processed bases in contigs",
                       Ev.log "Calculated TNF in seconds",
                       Ev.log "Calculating RPKM",
                       Ev.log "Parsing BAM files with subprocesses",
                       Ev.callStage "read_bamfiles",
                       Ev.write (joinPath a.outdir "rpkm.npz"),
                       Ev.log "Calculated RPKM in seconds",
                       Ev.log "Training VAE",
                       Ev.callStage "encode.trainvae",
                       Ev.write (joinPath a.outdir "model.pt"),
                       Ev.callStage "vae.encode",
                       Ev.write (joinPath a.outdir "latent.npz"),
                       Ev.log "Trained VAE and encoded in seconds",
                       Ev.log "Clustering",
                       Ev.callStage "cluster.cluster",
                       Ev.write (joinPath a.outdir "clusters.tsv"),
                       Ev.callStage "write_clusters"] := by
                    simp [runScript, hv, main, calc_tnf, calc_rpkm, trainvae, cluster]
                  rw [htr]
                  exact ⟨fun _ =>
                      ⟨[Ev.mkdir a.outdir,
                       Ev.write (joinPath a.outdir "log.txt"),
                       Ev.log "Starting Vamb version",
                       Ev.log "Calculating TNF",
                       Ev.callStage "read_contigs"],
                       [Ev.log "Processed bases in contigs",
                        Ev.log "Calculated TNF in seconds",
                        Ev.log "Calculating RPKM",
                        Ev.log "Parsing BAM files with subprocesses",
                        Ev.callStage "read_bamfiles",
                        Ev.write (joinPath a.outdir "rpkm.npz"),
                        Ev.log "Calculated RPKM in seconds",
                        Ev.log "Training VAE",
                        Ev.callStage "encode.trainvae",
                        Ev.write (joinPath a.outdir "model.pt"),
                        Ev.callStage "vae.encode",
                        Ev.write (joinPath a.outdir "latent.npz"),
                        Ev.log "Trained VAE and encoded in seconds",
                        Ev.log "Clustering",
                        Ev.callStage "cluster.cluster",
                        Ev.write (joinPath a.outdir "clusters.tsv"),
                        Ev.callStage "write_clusters"], by simp, by simp⟩,
                    fun _ =>
                      ⟨[Ev.mkdir a.outdir,
                       Ev.write (joinPath a.outdir "log.txt"),
                       Ev.log "Starting Vamb version",
                       Ev.log "Calculating TNF",
                       Ev.callStage "read_contigs",
                       Ev.write (joinPath a.outdir "tnf.npz"),
                       Ev.log "Processed bases in contigs",
                       Ev.log "Calculated TNF in seconds",
                       Ev.log "Calculating RPKM",
                       Ev.log "Parsing BAM files with subprocesses",
                       Ev.callStage "read_bamfiles"],
                       [Ev.log "Calculated RPKM in seconds",
                        Ev.log "Training VAE",
                        Ev.callStage "encode.trainvae",
                        Ev.write (joinPath a.outdir "model.pt"),
                        Ev.callStage "vae.encode",
                        Ev.write (joinPath a.outdir "latent.npz"),
                        Ev.log "Trained VAE and encoded in seconds",
                        Ev.log "Clustering",
                        Ev.callStage "cluster.cluster",
                        Ev.write (joinPath a.outdir "clusters.tsv"),
                        Ev.callStage "write_clusters"], by simp, by simp⟩,
                    fun _ =>
                      ⟨[Ev.mkdir a.outdir,
                       Ev.write (joinPath a.outdir "log.txt"),
                       Ev.log "Starting Vamb version",
                       Ev.log "Calculating TNF",
                       Ev.callStage "read_contigs",
                       Ev.write (joinPath a.outdir "tnf.npz"),
                       Ev.log "Processed bases in contigs",
                       Ev.log "Calculated TNF in seconds",
                       Ev.log "Calculating RPKM",
                       Ev.log "Parsing BAM files with subprocesses",
                       Ev.callStage "read_bamfiles",
                       Ev.write (joinPath a.outdir "rpkm.npz"),
                       Ev.log "Calculated RPKM in seconds",
                       Ev.log "Training VAE",
                       Ev.callStage "encode.trainvae",
                       Ev.write (joinPath a.outdir "model.pt"),
                       Ev.callStage "vae.encode"],
                       [Ev.log "Trained VAE and encoded in seconds",
                        Ev.log "Clustering",
                        Ev.callStage "cluster.cluster",
                        Ev.write (joinPath a.outdir "clusters.tsv"),
                        Ev.callStage "write_clusters"], by simp, by simp⟩⟩
                | ok k2 =>
                  have htr : (runScript env a (Collab.mk (Except.ok m) (Except.ok m) (Except.ok u) (Except.ok v) (Except.ok k) (Except.ok k2))).1 =
                      [Ev.mkdir a.outdir,
                       Ev.write (joinPath a.outdir "log.txt"),
                       Ev.log "Starting Vamb version",
                       Ev.log "Calculating TNF",
                       Ev.callStage "read_contigs",
                       Ev.write (joinPath a.outdir "tnf.npz"),
                       Ev.log "Processed bases in contigs",
                       Ev.log "Calculated TNF in seconds",
                       Ev.log "Calculating RPKM",
                       Ev.log "Parsing BAM files with subprocesses",
                       Ev.callStage "read_bamfiles",
                       Ev.write (joinPath a.outdir "rpkm.npz"),
                       Ev.log "Calculated RPKM in seconds",
                       Ev.log "Training VAE",
                       Ev.callStage "encode.trainvae",
                       Ev.write (joinPath a.outdir "model.pt"),
                       Ev.callStage "vae.encode",
                       Ev.write (joinPath a.outdir "latent.npz"),
                       Ev.log "Trained VAE and encoded in seconds",
                       Ev.log "Clustering",
                       Ev.callStage "cluster.cluster",
                       Ev.write (joinPath a.outdir "clusters.tsv"),
                       Ev.callStage "write_clusters",
                       Ev.log "Clustered contigs in seconds",
                       Ev.log "Completed Vamb in seconds"] := by
                    simp [runScript, hv, main, calc_tnf, calc_rpkm, trainvae, cluster]
                  rw [htr]
                  exact ⟨fun _ =>
                      ⟨[Ev.mkdir a.outdir,
                       Ev.write (joinPath a.outdir "log.txt"),
                       Ev.log "Starting Vamb version",
                       Ev.log "Calculating TNF",
                       Ev.callStage "read_contigs"],
                       [Ev.log "Processed bases in contigs",
                        Ev.log "Calculated TNF in seconds",
                        Ev.log "Calculating RPKM",
                        Ev.log "Parsing BAM files with subprocesses",
                        Ev.callStage "read_bamfiles",
                        Ev.write (joinPath a.outdir "rpkm.npz"),
                        Ev.log "Calculated RPKM in seconds",
                        Ev.log "Training VAE",
                        Ev.callStage "encode.trainvae",
                        Ev.write (joinPath a.outdir "model.pt"),
                        Ev.callStage "vae.encode",
                        Ev.write (joinPath a.outdir "latent.npz"),
                        Ev.log "Trained VAE and encoded in seconds",
                        Ev.log "Clustering",
                        Ev.callStage "cluster.cluster",
                        Ev.write (joinPath a.outdir "clusters.tsv"),
                        Ev.callStage "write_clusters",
                        Ev.log "Clustered contigs in seconds",
                        Ev.log "Completed Vamb in seconds"], by simp, by simp⟩,
                    fun _ =>
                      ⟨[Ev.mkdir a.outdir,
                       Ev.write (joinPath a.outdir "log.txt"),
                       Ev.log "Starting Vamb version",
                       Ev.log "Calculating TNF",
                       Ev.callStage "read_contigs",
                       Ev.write (joinPath a.outdir "tnf.npz"),
                       Ev.log "Processed bases in contigs",
                       Ev.log "Calculated TNF in seconds",
                       Ev.log "Calculating RPKM",
                       Ev.log "Parsing BAM files with subprocesses",
                       Ev.callStage "read_bamfiles"],
                       [Ev.log "Calculated RPKM in seconds",
                        Ev.log "Training VAE",
                        Ev.callStage "encode.trainvae",
                        Ev.write (joinPath a.outdir "model.pt"),
                        Ev.callStage "vae.encode",
                        Ev.write (joinPath a.outdir "latent.npz"),
                        Ev.log "Trained VAE and encoded in seconds",
                        Ev.log "Clustering",
                        Ev.callStage "cluster.cluster",
                        Ev.write (joinPath a.outdir "clusters.tsv"),
                        Ev.callStage "write_clusters",
                        Ev.log "Clustered contigs in seconds",
                        Ev.log "Completed Vamb in seconds"], by simp, by simp⟩,
                    fun _ =>
                      ⟨[Ev.mkdir a.outdir,
                       Ev.write (joinPath a.outdir "log.txt"),
                       Ev.log "Starting Vamb version",
                       Ev.log "Calculating TNF",
                       Ev.callStage "read_contigs",
                       Ev.write (joinPath a.outdir "tnf.npz"),
                       Ev.log "Processed bases in contigs",
                       Ev.log "Calculated TNF in seconds",
                       Ev.log "Calculating RPKM",
                       Ev.log "Parsing BAM files with subprocesses",
                       Ev.callStage "read_bamfiles",
                       Ev.write (joinPath a.outdir "rpkm.npz"),
                       Ev.log "Calculated RPKM in seconds",
                       Ev.log "Training VAE",
                       Ev.callStage "encode.trainvae",
                       Ev.write (joinPath a.outdir "model.pt"),
                       Ev.callStage "vae.encode"],
                       [Ev.log "Trained VAE and encoded in seconds",
                        Ev.log "Clustering",
                        Ev.callStage "cluster.cluster",
                        Ev.write (joinPath a.outdir "clusters.tsv"),
                        Ev.callStage "write_clusters",
                        Ev.log "Clustered contigs in seconds",
                        Ev.log "Completed Vamb in seconds"], by simp, by simp⟩⟩
        · have htr : (runScript env a (Collab.mk (Except.ok n) (Except.ok m) et ve ci wc)).1 =
              [Ev.mkdir a.outdir,
               Ev.write (joinPath a.outdir "log.txt"),
               Ev.log "Starting Vamb version",
               Ev.log "Calculating TNF",
               Ev.callStage "read_contigs",
               Ev.write (joinPath a.outdir "tnf.npz"),
               Ev.log "Processed bases in contigs",
               Ev.log "Calculated TNF in seconds",
               Ev.log "Calculating RPKM",
               Ev.log "Parsing BAM files with subprocesses",
               Ev.callStage "read_bamfiles"] := by
            simp [runScript, hv, main, calc_tnf, calc_rpkm, trainvae, cluster, hnm]
          rw [htr]
          exact ⟨fun _ =>
              ⟨[Ev.mkdir a.outdir,
               Ev.write (joinPath a.outdir "log.txt"),
               Ev.log "Starting Vamb version",
               Ev.log "Calculating TNF",
               Ev.callStage "read_contigs"],
               [Ev.log "Processed bases in contigs",
                Ev.log "Calculated TNF in seconds",
                Ev.log "Calculating RPKM",
                Ev.log "Parsing BAM files with subprocesses",
                Ev.callStage "read_bamfiles"], by simp, by simp⟩,
            fun hmem => absurd hmem (by simp),
            fun hmem => absurd hmem (by simp)⟩

/-- Witness for C4 on the all-success run: the coverage stage call is
preceded by the persisted tnf.npz write. -/
theorem c4_stage_order_witness :
    ∃ l1 l2, (runScript envOK argsOK collabOK).1 =
        l1 ++ Ev.write (joinPath (Args.outdir argsOK) "tnf.npz") :: l2 ∧
      Ev.callStage "read_bamfiles" ∈ l2 :=
  (c4_stage_order envOK argsOK collabOK).1 (by decide)

end Vamb

